import Mathlib

/-!
# Verification of the grid-expansion search and deduplication engine

Shallow embedding of the lead-generation tool's core (files `app.py`,
`utils/pagination.py`, `utils/radius_utils.py`, `utils/api_utils.py`,
`utils/google_utils.py`) together with proofs of the specified properties.

Modelling conventions:
* A Google place result (a Python dict) is modelled by `Place`, keeping the
  `place_id` entry (`none` models a dict without the key; the code treats a
  missing id and the empty string alike, via Python truthiness) and an opaque
  `payload` standing for all other fields, which the dedup logic never reads.
* A places-API JSON response is modelled by `Response` with the fields the
  code reads: `status`, `results` and `next_page_token`.
* The network is an oracle `ℕ → Option Response`: the value returned by the
  `n`-th invocation of `safe_request` inside one fetch run (`none` models a
  request that failed after exhausting its retries).
* Python sets of place ids are modelled as `List String` used only through
  membership; Python floats are modelled as real numbers, and the purely
  rational delay computations as `ℚ`.
-/

/-- A raw place dictionary as returned by the places API.  Only `place_id`
is inspected by the dedup logic; `payload` stands for all other fields. -/
structure Place where
  place_id : Option String
  payload : String
deriving DecidableEq, Repr

/-- A places-API JSON response, restricted to the fields the code reads. -/
structure Response where
  status : String
  results : List Place
  next_page_token : Option String
deriving DecidableEq, Repr

/-- The shared result-collection loop body.  Embeds the Python loop

    for place in results:
        place_id = place.get('place_id')
        if place_id and place_id not in seen_set:
            acc.append(place)
            seen_set.add(place_id)

which appears verbatim in `fetch_places_paginated_generic`
(`utils/pagination.py` lines 66-70 and 104-109) and in `perform_grid_search`
(`utils/radius_utils.py` lines 127-132).  `st.1` is the accumulated list,
`st.2` the id set.  Python truthiness of `place_id` is `some pid` with
`pid ≠ ""`. -/
def addNewPlaces : List Place → List Place × List String → List Place × List String
  | [], st => st
  | place :: rest, (acc, seen) =>
    match place.place_id with
    | none => addNewPlaces rest (acc, seen)
    | some pid =>
      if pid ≠ "" ∧ pid ∉ seen then addNewPlaces rest (acc ++ [place], pid :: seen)
      else addNewPlaces rest (acc, seen)

/-- The page loop of `fetch_places_paginated_generic`
(`utils/pagination.py` lines 82-130): while a continuation token is present
and fewer than `MAX_PAGES = 3` pages were fetched, request the next page
(`oracle idx`); a failed request (`none`) breaks, keeping partial results;
an `OK` page is folded in via the dedup loop; an empty `OK` page that still
carries a token breaks (safety break, line 114); any non-`OK` status
(`INVALID_REQUEST` or other) breaks.  `fuel` is the number of page fetches
still allowed (`MAX_PAGES - current_page`). -/
def fetch_pages (oracle : ℕ → Option Response) :
    ℕ → ℕ → Option String → List Place × List String → List Place × List String
  | 0, _, _, st => st
  | fuel + 1, idx, token, st =>
    match token with
    | none => st
    | some _ =>
      match oracle idx with
      | none => st
      | some resp =>
        if resp.status = "OK" then
          let st' := addNewPlaces resp.results st
          if resp.results = [] ∧ resp.next_page_token ≠ none then st'
          else fetch_pages oracle fuel (idx + 1) resp.next_page_token st'
        else st

/-- `fetch_places_paginated_generic` (`utils/pagination.py` lines 17-133).
Returns `(some results, seen_ids)` on success, `(none, [])` when the API key
is missing (Python falsy: empty string), when the initial request fails, or
when the first page has a status other than `OK`/`ZERO_RESULTS`;
`ZERO_RESULTS` on the first page short-circuits to `(some [], [])`. -/
def fetch_places_paginated_generic (api_key : String) (oracle : ℕ → Option Response) :
    Option (List Place) × List String :=
  if api_key = "" then (none, [])
  else
    match oracle 0 with
    | none => (none, [])
    | some resp =>
      if resp.status = "OK" then
        let st := addNewPlaces resp.results ([], [])
        let final := fetch_pages oracle 2 1 resp.next_page_token st
        (some final.1, final.2)
      else if resp.status = "ZERO_RESULTS" then (some [], [])
      else (none, [])

/-- The point loop of `perform_grid_search` (`utils/radius_utils.py`
lines 105-140): one paginated fetch per grid point; a fully failed fetch
(`none`) or an empty result list contributes nothing; otherwise the shared
dedup loop adds the new places to the running list and the master id set.
`fetch pt` returns the pair `(results_for_point, ids_from_point)`; the id
component is ignored by the source. -/
def gridLoop {α : Type} (fetch : α → Option (List Place) × List String) :
    List α → List Place × List String → List Place × List String
  | [], st => st
  | pt :: rest, st =>
    match (fetch pt).1 with
    | some results => gridLoop fetch rest (addNewPlaces results st)
    | none => gridLoop fetch rest st

/-- `perform_grid_search` (`utils/radius_utils.py` lines 81-143).  Takes the
grid point list, the paginated-fetch function (in the source,
`fetch_places_paginated_generic` applied to the point's query parameters and
the injected `safe_request_func`), and the master processed-id set; returns
the list of new unique businesses and the updated master set (the source
mutates the set in place; we thread it). -/
def perform_grid_search {α : Type} (grid_points : List α)
    (fetch : α → Option (List Place) × List String)
    (processed_businesses_set : List String) : List Place × List String :=
  match grid_points with
  | [] => ([], processed_businesses_set)
  | pts => gridLoop fetch pts ([], processed_businesses_set)

/-- The direct-phase pagination loop of `get_businesses` (`app.py`
lines 274-289): while a token is present and fewer than
`MAX_PAGES_TO_FETCH = 3` pages were fetched, request the next page; a failed
request breaks keeping the partial accumulation; otherwise the page's
results are appended with **no** per-run dedup (`all_page_results.extend`);
an empty page that still carries a token breaks. -/
def direct_loop (oracle : ℕ → Option Response) :
    ℕ → ℕ → Option String → List Place → List Place
  | 0, _, _, acc => acc
  | fuel + 1, idx, token, acc =>
    match token with
    | none => acc
    | some _ =>
      match oracle idx with
      | none => acc
      | some data =>
        let acc' := acc ++ data.results
        if data.results = [] ∧ data.next_page_token ≠ none then acc'
        else direct_loop oracle fuel (idx + 1) data.next_page_token acc'

/-- The direct (non-grid) phase for one keyword variant in `get_businesses`
(`app.py` lines 259-290).  A failed initial request makes the keyword be
skipped entirely (`continue`, line 266), modelled as `none`. -/
def direct_phase (oracle : ℕ → Option Response) : Option (List Place) :=
  match oracle 0 with
  | none => none
  | some data => some (direct_loop oracle 2 1 data.next_page_token data.results)

/-- `GRID_SEARCH_THRESHOLD` (`app.py` line 294). -/
def GRID_SEARCH_THRESHOLD : ℕ := 55

/-- Outcome of processing one keyword variant inside `get_businesses`. -/
structure KeywordOutcome where
  /-- the keyword was skipped because its initial direct request failed -/
  skipped : Bool
  /-- `all_page_results` at the end of the direct pagination phase -/
  direct : List Place
  /-- the code entered the grid-search fallback branch (`app.py` line 296) -/
  gridInitiated : Bool
  /-- the list returned by `perform_grid_search` (empty if the grid did not run) -/
  gridResults : List Place
  /-- `all_page_results` after the optional merge (`app.py` line 330) -/
  merged : List Place
  /-- the master processed-id set after this keyword variant -/
  processedAfter : List String
deriving DecidableEq, Repr

/-- One iteration of the keyword-variant loop of `get_businesses` (`app.py`
lines 238-346): direct paginated search, threshold decision at
`GRID_SEARCH_THRESHOLD`, geocoding (`geocode` models the pair returned by
`get_coordinates`, `none` standing for `(None, None)`), grid generation
(whose output list is passed in as `gridPoints`), grid search, and the merge
of grid results into `all_page_results`.  `gridOracle pt` is the
`safe_request` response sequence seen by the paginated fetch at grid point
`pt`. -/
def keyword_search {α : Type} (api_key : String) (directOracle : ℕ → Option Response)
    (geocode : Option (ℚ × ℚ)) (gridPoints : List α)
    (gridOracle : α → ℕ → Option Response)
    (processed : List String) : KeywordOutcome :=
  match direct_phase directOracle with
  | none => ⟨true, [], false, [], [], processed⟩
  | some all_page_results =>
    if all_page_results.length < GRID_SEARCH_THRESHOLD then
      match geocode with
      | some _ =>
        match gridPoints with
        | [] => ⟨false, all_page_results, true, [], all_page_results, processed⟩
        | pts =>
          let res := perform_grid_search pts
            (fun pt => fetch_places_paginated_generic api_key (gridOracle pt)) processed
          ⟨false, all_page_results, true, res.1, all_page_results ++ res.1, res.2⟩
      | none => ⟨false, all_page_results, true, [], all_page_results, processed⟩
    else ⟨false, all_page_results, false, [], all_page_results, processed⟩

/-- The final per-industry emission loop of `get_businesses` (`app.py`
lines 358-398): every place of the merged pool whose id is non-empty, not in
the session set and not in `ids_added_this_industry_block` is emitted and
both sets gain the id.  Returns `(emitted place ids in order, processed',
block')`; the enrichment fields of the emitted business dict are irrelevant
to the dedup claims and are abstracted to the id. -/
def process_results : List Place → List String → List String →
    List String × List String × List String
  | [], processed, block => ([], processed, block)
  | place :: rest, processed, block =>
    let pid := place.place_id.getD ""
    if pid ≠ "" ∧ pid ∉ processed ∧ pid ∉ block then
      let r := process_results rest (pid :: processed) (pid :: block)
      (pid :: r.1, r.2.1, r.2.2)
    else process_results rest processed block

/-! ## Deduplication invariant -/

/-- Invariant of the result-collection state `(acc, seen)`, relative to the
ids `processed0` present in the master set when the run started: the
accumulated places carry pairwise distinct `place_id`s; every accumulated
place has a non-empty id that is in `seen` and was **not** in `processed0`;
and `seen` retains all of `processed0`. -/
def DedupInv (processed0 : List String) (st : List Place × List String) : Prop :=
  (st.1.map Place.place_id).Nodup ∧
  (∀ pl ∈ st.1, ∃ pid, pl.place_id = some pid ∧ pid ≠ "" ∧ pid ∈ st.2 ∧ pid ∉ processed0) ∧
  ∀ pid ∈ processed0, pid ∈ st.2

theorem dedupInv_init (processed : List String) : DedupInv processed ([], processed) := by
  refine ⟨List.nodup_nil, ?_, fun pid h => h⟩
  intro pl hpl
  exact absurd hpl (List.not_mem_nil pl)

theorem addNewPlaces_inv (processed0 : List String) :
    ∀ (results : List Place) (st : List Place × List String),
      DedupInv processed0 st → DedupInv processed0 (addNewPlaces results st) := by
  intro results
  induction results with
  | nil => intro st h; simpa [addNewPlaces] using h
  | cons place rest ih =>
    rintro ⟨acc, seen⟩ ⟨h1, h2, h3⟩
    rcases hpid : place.place_id with _ | pid
    · simp only [addNewPlaces, hpid]
      exact ih (acc, seen) ⟨h1, h2, h3⟩
    · simp only [addNewPlaces, hpid]
      by_cases hc : pid ≠ "" ∧ pid ∉ seen
      · rw [if_pos hc]
        apply ih
        have hnotin : some pid ∉ acc.map Place.place_id := by
          intro hmem
          obtain ⟨pl, hpl, heq⟩ := List.mem_map.mp hmem
          obtain ⟨pid', heq', -, hin, -⟩ := h2 pl hpl
          rw [heq'] at heq
          exact hc.2 (Option.some_injective _ heq ▸ hin)
        refine ⟨?_, ?_, ?_⟩
        · simp only [List.map_append, List.map_cons, List.map_nil, hpid]
          rw [List.nodup_append]
          exact ⟨h1, List.nodup_singleton _, by
            intro x hx hx'
            rcases List.mem_singleton.mp hx' with rfl
            exact hnotin hx⟩
        · intro pl hpl
          rcases List.mem_append.mp hpl with hin | hin
          · obtain ⟨pid', e, hne, hmem, hp0⟩ := h2 pl hin
            exact ⟨pid', e, hne, List.mem_cons_of_mem _ hmem, hp0⟩
          · rcases List.mem_singleton.mp hin with rfl
            refine ⟨pid, hpid, hc.1, List.mem_cons_self _ _, fun hp0 => hc.2 (h3 pid hp0)⟩
        · intro q hq
          exact List.mem_cons_of_mem _ (h3 q hq)
      · rw [if_neg hc]
        exact ih (acc, seen) ⟨h1, h2, h3⟩

theorem gridLoop_inv {α : Type} (processed0 : List String)
    (fetch : α → Option (List Place) × List String) :
    ∀ (pts : List α) (st : List Place × List String),
      DedupInv processed0 st → DedupInv processed0 (gridLoop fetch pts st) := by
  intro pts
  induction pts with
  | nil => intro st h; simpa [gridLoop] using h
  | cons pt rest ih =>
    intro st h
    rcases hf : (fetch pt).1 with _ | results
    · simp only [gridLoop, hf]
      exact ih st h
    · simp only [gridLoop, hf]
      exact ih _ (addNewPlaces_inv processed0 results st h)

theorem fetch_pages_inv (processed0 : List String) (oracle : ℕ → Option Response) :
    ∀ (fuel idx : ℕ) (token : Option String) (st : List Place × List String),
      DedupInv processed0 st → DedupInv processed0 (fetch_pages oracle fuel idx token st) := by
  intro fuel
  induction fuel with
  | zero => intro idx token st h; simpa [fetch_pages] using h
  | succ fuel ih =>
    intro idx token st h
    rcases token with _ | t
    · simpa [fetch_pages] using h
    · rcases ho : oracle idx with _ | resp
      · simpa [fetch_pages, ho] using h
      · by_cases hs : resp.status = "OK"
        · by_cases hbrk : resp.results = [] ∧ resp.next_page_token ≠ none
          · simpa [fetch_pages, ho, hs, hbrk] using addNewPlaces_inv processed0 resp.results st h
          · simpa [fetch_pages, ho, hs, hbrk] using
              ih (idx + 1) resp.next_page_token _ (addNewPlaces_inv processed0 resp.results st h)
        · simpa [fetch_pages, ho, hs] using h

/-- The three dedup properties of a grid-search call, derived from the
invariant; shared by the claims about `perform_grid_search` and about the
controller that invokes it. -/
theorem perform_grid_search_spec {α : Type} (grid_points : List α)
    (fetch : α → Option (List Place) × List String) (processed : List String) :
    (∀ pid ∈ processed,
      ∀ pl ∈ (perform_grid_search grid_points fetch processed).1, pl.place_id ≠ some pid) ∧
    ((perform_grid_search grid_points fetch processed).1.map Place.place_id).Nodup ∧
    (∀ pl ∈ (perform_grid_search grid_points fetch processed).1,
      ∃ pid, pl.place_id = some pid ∧ pid ∈ (perform_grid_search grid_points fetch processed).2) := by
  have hinv : DedupInv processed (perform_grid_search grid_points fetch processed) := by
    rcases grid_points with _ | ⟨pt, rest⟩
    · simpa [perform_grid_search] using dedupInv_init processed
    · simpa [perform_grid_search] using
        gridLoop_inv processed fetch (pt :: rest) ([], processed) (dedupInv_init processed)
  obtain ⟨h1, h2, h3⟩ := hinv
  refine ⟨?_, h1, ?_⟩
  · intro pid hpid pl hpl heq
    obtain ⟨pid', e, -, -, hp0⟩ := h2 pl hpl
    rw [e] at heq
    exact hp0 (Option.some_injective _ heq ▸ hpid)
  · intro pl hpl
    obtain ⟨pid', e, -, hmem, -⟩ := h2 pl hpl
    exact ⟨pid', e, hmem⟩

/-- The emitted-id list of the final processing loop never repeats an id and
never emits an id already in `ids_added_this_industry_block`. -/
theorem process_results_spec :
    ∀ (pool : List Place) (processed block : List String),
      (process_results pool processed block).1.Nodup ∧
      ∀ pid ∈ (process_results pool processed block).1, pid ∉ block := by
  intro pool
  induction pool with
  | nil =>
    intro processed block
    simp [process_results]
  | cons place rest ih =>
    intro processed block
    by_cases hc : place.place_id.getD "" ≠ "" ∧ place.place_id.getD "" ∉ processed ∧
        place.place_id.getD "" ∉ block
    · obtain ⟨hnodup, hblk⟩ := ih (place.place_id.getD "" :: processed) (place.place_id.getD "" :: block)
      simp only [process_results, if_pos hc]
      constructor
      · refine List.nodup_cons.mpr ⟨?_, hnodup⟩
        intro hmem
        exact hblk _ hmem (List.mem_cons_self _ _)
      · intro pid hmem hinblk
        rcases List.mem_cons.mp hmem with rfl | hmem'
        · exact hc.2.2 hinblk
        · exact hblk pid hmem' (List.mem_cons_of_mem _ hinblk)
    · simp only [process_results, if_neg hc]
      obtain ⟨hnodup, hblk⟩ := ih processed block
      exact ⟨hnodup, hblk⟩

/-! ## C1: global dedup invariants of the Grid Search Orchestrator -/

/-- C1: for every call to `perform_grid_search`, every placeId in the
processed-businesses set before the call is absent from the returned list,
the returned list contains no two entries with the same placeId, and every
placeId of a returned entry is in the processed-businesses set when the
call returns. -/
theorem C1_grid_search_global_dedup {α : Type} (grid_points : List α)
    (fetch : α → Option (List Place) × List String)
    (processed : List String) (res : List Place) (processed' : List String)
    (h : perform_grid_search grid_points fetch processed = (res, processed')) :
    (∀ pid ∈ processed, ∀ pl ∈ res, pl.place_id ≠ some pid) ∧
    (res.map Place.place_id).Nodup ∧
    (∀ pl ∈ res, ∃ pid, pl.place_id = some pid ∧ pid ∈ processed') := by
  have hs := perform_grid_search_spec grid_points fetch processed
  rw [h] at hs
  exact hs

/-- Witness for C1: a concrete grid search over one point whose fetch
returns ids `A`, `B`, `A` with `B` already processed; only the `A` entry is
returned and both ids end up processed. -/
theorem C1_grid_search_global_dedup_witness :
    (∀ pid ∈ ["B"], ∀ pl ∈ [Place.mk (some "A") "a1"], pl.place_id ≠ some pid) ∧
    (([Place.mk (some "A") "a1"].map Place.place_id)).Nodup ∧
    (∀ pl ∈ [Place.mk (some "A") "a1"], ∃ pid, pl.place_id = some pid ∧ pid ∈ ["A", "B"]) :=
  C1_grid_search_global_dedup [((0 : ℚ), (0 : ℚ))]
    (fun _ => (some [Place.mk (some "A") "a1", Place.mk (some "B") "b1",
      Place.mk (some "A") "a1"], []))
    ["B"] [Place.mk (some "A") "a1"] ["A", "B"] (by decide)

/-! ## C2: the grid-expansion threshold decision -/

/-- C2: in the per-keyword loop of `get_businesses`, when the initial direct
request succeeds, the grid-expansion branch is entered iff the direct
pagination accumulated fewer than `GRID_SEARCH_THRESHOLD = 55` results; with
at least 55 results it is skipped.  (When the initial direct request fails
the keyword is skipped entirely and no grid search happens either.) -/
theorem C2_grid_threshold_iff {α : Type} (api_key : String)
    (directOracle : ℕ → Option Response) (geocode : Option (ℚ × ℚ))
    (gridPoints : List α) (gridOracle : α → ℕ → Option Response)
    (processed : List String) (h : directOracle 0 ≠ none) :
    (keyword_search api_key directOracle geocode gridPoints gridOracle processed).skipped
        = false ∧
    ((keyword_search api_key directOracle geocode gridPoints gridOracle processed).gridInitiated
        = true ↔
      (keyword_search api_key directOracle geocode gridPoints gridOracle processed).direct.length
        < GRID_SEARCH_THRESHOLD) := by
  rcases ho : directOracle 0 with _ | data
  · exact absurd ho h
  · have hdp : direct_phase directOracle
        = some (direct_loop directOracle 2 1 data.next_page_token data.results) := by
      simp [direct_phase, ho]
    simp only [keyword_search, hdp]
    by_cases hlen : (direct_loop directOracle 2 1 data.next_page_token data.results).length
      < GRID_SEARCH_THRESHOLD
    · rcases geocode with _ | c
      · simp [hlen]
      · rcases gridPoints with _ | ⟨pt, rest⟩
        · simp [hlen]
        · simp [hlen]
    · simp [hlen]

/-- Witness for C2: a successful direct search with zero results triggers
the grid branch. -/
theorem C2_grid_threshold_iff_witness :
    (keyword_search "k" (fun n => if n = 0 then some ⟨"OK", [], none⟩ else none)
      none ([] : List (ℚ × ℚ)) (fun _ _ => none) []).skipped = false ∧
    ((keyword_search "k" (fun n => if n = 0 then some ⟨"OK", [], none⟩ else none)
      none ([] : List (ℚ × ℚ)) (fun _ _ => none) []).gridInitiated = true ↔
      (keyword_search "k" (fun n => if n = 0 then some ⟨"OK", [], none⟩ else none)
        none ([] : List (ℚ × ℚ)) (fun _ _ => none) []).direct.length
        < GRID_SEARCH_THRESHOLD) :=
  C2_grid_threshold_iff "k" (fun n => if n = 0 then some ⟨"OK", [], none⟩ else none)
    none ([] : List (ℚ × ℚ)) (fun _ _ => none) [] (by decide)

/-! ## C3: duplication across the direct/grid merge -/

/-- C3 is false as stated: a business found by the direct phase and found
again by the grid search appears twice in the merged pool, because the
direct-phase results are only added to the processed set after the merge.
Concrete run: the direct search finds the place with id `A`, grid expansion
runs (geocoding succeeds) and its single point's fetch returns the same
place; the merged pool holds id `A` twice. -/
theorem C3_counterexample :
    (keyword_search "k" (fun n => if n = 0 then some ⟨"OK", [⟨some "A", "gym"⟩], none⟩ else none)
        (some ((0 : ℚ), (0 : ℚ))) [((0 : ℚ), (0 : ℚ))]
        (fun _ n => if n = 0 then some ⟨"OK", [⟨some "A", "gym"⟩], none⟩ else none) [])
      = ⟨false, [⟨some "A", "gym"⟩], true, [⟨some "A", "gym"⟩],
          [⟨some "A", "gym"⟩, ⟨some "A", "gym"⟩], ["A"]⟩ ∧
    ¬ (([⟨some "A", "gym"⟩, ⟨some "A", "gym"⟩].map Place.place_id) : List (Option String)).Nodup := by
  decide

/-- C3 (amended): the grid-phase results never duplicate a placeId that was
already in the processed set before the grid search ran, and although a
placeId found by the direct phase can reappear in the grid results (and so
be duplicated in the merged pool), the final emission loop of
`get_businesses` collapses it: it never emits the same placeId twice. -/
theorem C3_merge_dedup_amended {α : Type} (api_key : String)
    (directOracle : ℕ → Option Response) (geocode : Option (ℚ × ℚ))
    (gridPoints : List α) (gridOracle : α → ℕ → Option Response)
    (processed : List String) (pool : List Place) :
    (∀ pid ∈ processed,
      ∀ pl ∈ (keyword_search api_key directOracle geocode gridPoints gridOracle processed).gridResults,
        pl.place_id ≠ some pid) ∧
    (process_results pool processed []).1.Nodup := by
  constructor
  · rcases hdp : direct_phase directOracle with _ | L
    · simp [keyword_search, hdp]
    · simp only [keyword_search, hdp]
      by_cases hlen : L.length < GRID_SEARCH_THRESHOLD
      · rcases geocode with _ | c
        · simp [hlen]
        · rcases gridPoints with _ | ⟨pt, rest⟩
          · simp [hlen]
          · simp only [hlen, if_pos]
            exact (perform_grid_search_spec (pt :: rest)
              (fun p => fetch_places_paginated_generic api_key (gridOracle p)) processed).1
      · simp [hlen]
  · exact (process_results_spec pool processed []).1

/-- Witness for C3 (amended) at a concrete keyword run: id `B` is processed
before the call, the grid fetch returns `B` and `A`, and the pool `A, A`
is emitted once. -/
theorem C3_merge_dedup_amended_witness :
    (∀ pid ∈ ["B"],
      ∀ pl ∈ (keyword_search "k"
          (fun n => if n = 0 then some ⟨"OK", [⟨some "A", "gym"⟩], none⟩ else none)
          (some ((0 : ℚ), (0 : ℚ))) [((0 : ℚ), (0 : ℚ))]
          (fun _ n => if n = 0 then some ⟨"OK", [⟨some "B", "gym"⟩, ⟨some "A", "gym"⟩], none⟩
            else none) ["B"]).gridResults,
        pl.place_id ≠ some pid) ∧
    (process_results [⟨some "A", "gym"⟩, ⟨some "A", "gym"⟩] ["B"] []).1.Nodup :=
  C3_merge_dedup_amended "k"
    (fun n => if n = 0 then some ⟨"OK", [⟨some "A", "gym"⟩], none⟩ else none)
    (some ((0 : ℚ), (0 : ℚ))) [((0 : ℚ), (0 : ℚ))]
    (fun _ n => if n = 0 then some ⟨"OK", [⟨some "B", "gym"⟩, ⟨some "A", "gym"⟩], none⟩ else none)
    ["B"] [⟨some "A", "gym"⟩, ⟨some "A", "gym"⟩]

/-! ## C8: initial vs subsequent page failure in the paginated fetcher -/

/-- C8: in `fetch_places_paginated_generic`, a failed initial request makes
the whole fetch return `None` with an empty id set, whereas a failed
subsequent page makes the fetch return the partial accumulation gathered so
far (here: the deduplicated first page) rather than a failure. -/
theorem C8_initial_vs_subsequent_failure (api_key : String) (oracle : ℕ → Option Response)
    (hk : api_key ≠ "") :
    (oracle 0 = none → fetch_places_paginated_generic api_key oracle = (none, [])) ∧
    (∀ resp t, oracle 0 = some resp → resp.status = "OK" →
      resp.next_page_token = some t → oracle 1 = none →
      fetch_places_paginated_generic api_key oracle =
        (some (addNewPlaces resp.results ([], [])).1, (addNewPlaces resp.results ([], [])).2)) := by
  constructor
  · intro h0
    simp [fetch_places_paginated_generic, hk, h0]
  · intro resp t h0 hs ht h1
    simp [fetch_places_paginated_generic, hk, h0, hs, ht, fetch_pages, h1]

/-- Witness for C8: concrete oracle whose page 1 succeeds with a token and
whose page 2 request fails. -/
theorem C8_initial_vs_subsequent_failure_witness :
    ((fun n => if n = 0 then some (Response.mk "OK" [⟨some "A", "a"⟩] (some "t")) else none) 0
        = none →
      fetch_places_paginated_generic "k"
        (fun n => if n = 0 then some (Response.mk "OK" [⟨some "A", "a"⟩] (some "t")) else none)
        = (none, [])) ∧
    (∀ resp t,
      (fun n => if n = 0 then some (Response.mk "OK" [⟨some "A", "a"⟩] (some "t")) else none) 0
          = some resp →
      resp.status = "OK" → resp.next_page_token = some t →
      (fun n => if n = 0 then some (Response.mk "OK" [⟨some "A", "a"⟩] (some "t")) else none) 1
          = none →
      fetch_places_paginated_generic "k"
        (fun n => if n = 0 then some (Response.mk "OK" [⟨some "A", "a"⟩] (some "t")) else none)
        = (some (addNewPlaces resp.results ([], [])).1, (addNewPlaces resp.results ([], [])).2)) :=
  C8_initial_vs_subsequent_failure "k"
    (fun n => if n = 0 then some (Response.mk "OK" [⟨some "A", "a"⟩] (some "t")) else none)
    (by decide)

/-! ## C9: intra-run dedup of fetch runs -/

/-- C9 is false as stated for the controller's direct phase: its pagination
accumulates pages with `all_page_results.extend(page_results)` and performs
no intra-run dedup, so a place repeated by the API on two pages appears
twice in the run's result list. -/
theorem C9_counterexample :
    direct_phase (fun n => if n = 0 then some ⟨"OK", [⟨some "A", "gym"⟩], some "t"⟩
        else if n = 1 then some ⟨"OK", [⟨some "A", "gym"⟩], none⟩ else none)
      = some [⟨some "A", "gym"⟩, ⟨some "A", "gym"⟩] ∧
    ¬ (([⟨some "A", "gym"⟩, ⟨some "A", "gym"⟩].map Place.place_id) : List (Option String)).Nodup := by
  decide

/-- C9 (amended): every run of the generic paginated fetcher
(`fetch_places_paginated_generic`) returns a list with no two entries
sharing a placeId, independently of the global processed set; the
controller's direct-phase accumulation does not deduplicate within the run
(see the counterexample), its duplicates being removed only at emission. -/
theorem C9_fetch_run_nodup_amended (api_key : String) (oracle : ℕ → Option Response)
    (l : List Place) (seen : List String)
    (h : fetch_places_paginated_generic api_key oracle = (some l, seen)) :
    (l.map Place.place_id).Nodup := by
  by_cases hk : api_key = ""
  · simp [fetch_places_paginated_generic, hk] at h
  · rcases ho : oracle 0 with _ | resp
    · simp [fetch_places_paginated_generic, hk, ho] at h
    · by_cases hs : resp.status = "OK"
      · have hinv : DedupInv []
            (fetch_pages oracle 2 1 resp.next_page_token (addNewPlaces resp.results ([], []))) :=
          fetch_pages_inv [] oracle 2 1 resp.next_page_token _
            (addNewPlaces_inv [] resp.results ([], []) (dedupInv_init []))
        simp only [fetch_places_paginated_generic, hk, ho, hs, if_neg, if_pos, if_true,
          ite_false, ite_true, Prod.mk.injEq, Option.some.injEq] at h
        obtain ⟨h1, -, -⟩ := hinv
        rcases h with ⟨rfl, -⟩
        exact h1
      · by_cases hz : resp.status = "ZERO_RESULTS"
        · simp only [fetch_places_paginated_generic, hk, ho, hs, hz, if_neg, if_pos, if_true,
            ite_false, ite_true, Prod.mk.injEq, Option.some.injEq] at h
          rcases h with ⟨rfl, -⟩
          simp
        · simp [fetch_places_paginated_generic, hk, ho, hs, hz] at h

/-- Witness for C9 (amended): a concrete two-page fetch that repeats id `A`
on the second page still returns it once. -/
theorem C9_fetch_run_nodup_amended_witness :
    (([⟨some "A", "gym"⟩, ⟨some "B", "gym"⟩] : List Place).map Place.place_id).Nodup :=
  C9_fetch_run_nodup_amended "k"
    (fun n => if n = 0 then some ⟨"OK", [⟨some "A", "gym"⟩], some "t"⟩
      else if n = 1 then some ⟨"OK", [⟨some "A", "gym"⟩, ⟨some "B", "gym"⟩], none⟩ else none)
    [⟨some "A", "gym"⟩, ⟨some "B", "gym"⟩] ["B", "A"] (by decide)

/-! ## C4: retry backoff delays -/

/-- The capped exponential base backoff of `safe_request` (`app.py` lines
74, 83, 88, 93): `min(initial_delay * (2 ** attempt), max_delay)`, with
defaults `initial_delay = 1`, `max_delay = 15`. -/
def safe_request_backoff (initial_delay max_delay : ℚ) (attempt : ℕ) : ℚ :=
  min (initial_delay * 2 ^ attempt) max_delay

/-- The jitter factor `0.8 + 0.4 * random.random()` (`app.py` line 76);
`u` models the value drawn by `random.random()`, so `0 ≤ u < 1`. -/
def jitter_factor (u : ℚ) : ℚ := 8 / 10 + 4 / 10 * u

/-- The delay actually slept by `safe_request`: the capped base backoff
multiplied by the jitter factor (`app.py` lines 74-76). -/
def safe_request_delay (initial_delay max_delay : ℚ) (attempt : ℕ) (u : ℚ) : ℚ :=
  safe_request_backoff initial_delay max_delay attempt * jitter_factor u

/-- The `current_backoff` sequence of `make_api_request_with_retry`
(`utils/api_utils.py` lines 27-28, 50, 100): starts at
`INITIAL_BACKOFF_SECONDS = 1`; after each retry it becomes
`min(current_backoff * 2, MAX_BACKOFF_SECONDS)` with cap 32. -/
def api_current_backoff : ℕ → ℚ
  | 0 => 1
  | k + 1 => min (api_current_backoff k * 2) 32

/-- The time slept before retry `k + 1` of `make_api_request_with_retry`
(`utils/api_utils.py` lines 96-97):
`jitter = current_backoff * 0.4 * (random.random() - 0.5)` and
`sleep_time = max(0.1, current_backoff + jitter)`. -/
def api_sleep_time (k : ℕ) (u : ℚ) : ℚ :=
  max (1 / 10) (api_current_backoff k + api_current_backoff k * (4 / 10) * (u - 1 / 2))

theorem api_current_backoff_eq (k : ℕ) : api_current_backoff k = min ((2 : ℚ) ^ k) 32 := by
  induction k with
  | zero => norm_num [api_current_backoff]
  | succ k ih =>
    rw [api_current_backoff, ih, pow_succ]
    rcases le_total ((2 : ℚ) ^ k) 32 with hk | hk
    · rw [min_eq_left hk]
    · have hpk : (0 : ℚ) < 2 ^ k := pow_pos (by norm_num) k
      rw [min_eq_right hk, min_eq_right (by norm_num : (32 : ℚ) ≤ 32 * 2),
        min_eq_right (by nlinarith : (32 : ℚ) ≤ 2 ^ k * 2)]

/-- C4 is false as stated: the slept delay is the capped base multiplied by
a jitter factor of up to 1.2, so it can exceed the configured maximum.  At
attempt 4 of `safe_request` with `random.random() = 0.9` the delay is
`min(16, 15) * 1.16 = 17.4 > 15`; at the capped stage of
`make_api_request_with_retry` with the same draw the sleep is
`32 * 1.16 = 37.12 > 32`. -/
theorem C4_counterexample :
    (0 ≤ (9 / 10 : ℚ) ∧ (9 / 10 : ℚ) < 1) ∧
    15 < safe_request_delay 1 15 4 (9 / 10) ∧
    32 < api_sleep_time 5 (9 / 10) := by
  refine ⟨by norm_num, ?_, ?_⟩
  · norm_num [safe_request_delay, safe_request_backoff, jitter_factor]
  · rw [api_sleep_time, api_current_backoff_eq]
    norm_num

/-- C4 (amended): for both retry shims the pre-jitter base backoff is
monotonically non-decreasing across attempts and never exceeds the
configured cap (15 s for `safe_request`, 32 s for
`make_api_request_with_retry`); the slept delay is the base multiplied by a
jitter factor in `[0.8, 1.2)`, hence below `1.2 ×` the cap (18 s resp.
38.4 s), and it is non-decreasing across successive attempts as long as the
base has not reached its cap. -/
theorem C4_backoff_amended (attempt : ℕ) (u v : ℚ)
    (hu0 : 0 ≤ u) (hu1 : u < 1) (hv0 : 0 ≤ v) (hv1 : v < 1) :
    (safe_request_backoff 1 15 attempt ≤ safe_request_backoff 1 15 (attempt + 1) ∧
     safe_request_backoff 1 15 attempt ≤ 15 ∧
     safe_request_delay 1 15 attempt u ≤ 15 * (12 / 10) ∧
     ((1 : ℚ) * 2 ^ (attempt + 1) ≤ 15 →
       safe_request_delay 1 15 attempt u ≤ safe_request_delay 1 15 (attempt + 1) v)) ∧
    (api_current_backoff attempt ≤ api_current_backoff (attempt + 1) ∧
     api_current_backoff attempt ≤ 32 ∧
     api_sleep_time attempt u ≤ 32 * (12 / 10) ∧
     ((2 : ℚ) ^ (attempt + 1) ≤ 32 →
       api_sleep_time attempt u ≤ api_sleep_time (attempt + 1) v)) := by
  have hpow : (0 : ℚ) < 2 ^ attempt := pow_pos (by norm_num) attempt
  have hfu : jitter_factor u ≤ 12 / 10 := by unfold jitter_factor; nlinarith
  have hfu0 : 4 / 5 ≤ jitter_factor u := by unfold jitter_factor; nlinarith
  have hfv0 : 4 / 5 ≤ jitter_factor v := by unfold jitter_factor; nlinarith
  have hfupos : (0 : ℚ) ≤ jitter_factor u := le_trans (by norm_num) hfu0
  refine ⟨⟨?_, ?_, ?_, ?_⟩, ?_, ?_, ?_, ?_⟩
  · exact min_le_min (by rw [one_mul, one_mul, pow_succ]; nlinarith) le_rfl
  · exact min_le_right _ _
  · have hb : safe_request_backoff 1 15 attempt ≤ 15 := min_le_right _ _
    exact mul_le_mul hb hfu hfupos (by norm_num)
  · intro hcap
    have hc : (1 : ℚ) * 2 ^ attempt ≤ 15 := by
      rw [one_mul]
      rw [one_mul, pow_succ] at hcap
      nlinarith
    unfold safe_request_delay safe_request_backoff
    rw [min_eq_left hc, min_eq_left hcap, one_mul, one_mul, pow_succ]
    calc 2 ^ attempt * jitter_factor u
        ≤ 2 ^ attempt * (12 / 10) := mul_le_mul_of_nonneg_left hfu hpow.le
      _ ≤ (2 ^ attempt * 2) * (4 / 5) := by nlinarith
      _ ≤ (2 ^ attempt * 2) * jitter_factor v := by
          exact mul_le_mul_of_nonneg_left hfv0 (by nlinarith)
  · rw [api_current_backoff_eq, api_current_backoff_eq]
    exact min_le_min (by rw [pow_succ]; nlinarith) le_rfl
  · rw [api_current_backoff_eq]; exact min_le_right _ _
  · have hb : api_current_backoff attempt ≤ 32 := by
      rw [api_current_backoff_eq]; exact min_le_right _ _
    have hb0 : (0 : ℚ) ≤ api_current_backoff attempt := by
      rw [api_current_backoff_eq]
      exact le_min (by positivity) (by norm_num)
    unfold api_sleep_time
    refine max_le (by norm_num) ?_
    have hrw : api_current_backoff attempt
        + api_current_backoff attempt * (4 / 10) * (u - 1 / 2)
        = api_current_backoff attempt * jitter_factor u := by
      unfold jitter_factor; ring
    rw [hrw]
    exact mul_le_mul hb hfu hfupos (by norm_num)
  · intro hcap
    have hc : (2 : ℚ) ^ attempt ≤ 32 := by
      rw [pow_succ] at hcap; nlinarith
    unfold api_sleep_time
    rw [api_current_backoff_eq, api_current_backoff_eq, min_eq_left hc, min_eq_left hcap]
    have h1 : (2 : ℚ) ^ attempt + 2 ^ attempt * (4 / 10) * (u - 1 / 2)
        ≤ 2 ^ (attempt + 1) + 2 ^ (attempt + 1) * (4 / 10) * (v - 1 / 2) := by
      rw [pow_succ]
      nlinarith [mul_nonneg hpow.le hv0, mul_pos hpow (show (0 : ℚ) < 1 - u by linarith)]
    exact max_le (le_max_left _ _) (le_max_of_le_right h1)

/-- Witness for C4 (amended) at attempt 0 with jitter draws 0 and 1/2. -/
theorem C4_backoff_amended_witness :
    (safe_request_backoff 1 15 0 ≤ safe_request_backoff 1 15 (0 + 1) ∧
     safe_request_backoff 1 15 0 ≤ 15 ∧
     safe_request_delay 1 15 0 0 ≤ 15 * (12 / 10) ∧
     ((1 : ℚ) * 2 ^ (0 + 1) ≤ 15 →
       safe_request_delay 1 15 0 0 ≤ safe_request_delay 1 15 (0 + 1) (1 / 2))) ∧
    (api_current_backoff 0 ≤ api_current_backoff (0 + 1) ∧
     api_current_backoff 0 ≤ 32 ∧
     api_sleep_time 0 0 ≤ 32 * (12 / 10) ∧
     ((2 : ℚ) ^ (0 + 1) ≤ 32 →
       api_sleep_time 0 0 ≤ api_sleep_time (0 + 1) (1 / 2))) :=
  C4_backoff_amended 0 0 (1 / 2) (by norm_num) (by norm_num) (by norm_num) (by norm_num)

/-! ## C10: the caller's parameter dict is not mutated -/

/-- Python dict assignment `d[k] = v` on the value level: replaces the
value of an existing key in place, otherwise appends the new pair
(insertion-order semantics). -/
def dictSet : List (String × String) → String → String → List (String × String)
  | [], k, v => [(k, v)]
  | (k0, v0) :: rest, k, v =>
    if k0 = k then (k, v) :: rest else (k0, v0) :: dictSet rest k v

/-- A heap of Python dict objects: `dicts i` is the dict held by reference
`i`; references below `next` are live.  `.copy()` and item assignment are
modelled as explicit heap operations, so that which object a write lands on
is part of the model. -/
structure DictHeap where
  next : ℕ
  dicts : ℕ → List (String × String)

/-- `d.copy()`: allocates a fresh reference holding the same pairs. -/
def dictCopy (h : DictHeap) (ref : ℕ) : DictHeap × ℕ :=
  (⟨h.next + 1, fun i => if i = h.next then h.dicts ref else h.dicts i⟩, h.next)

/-- `d[k] = v` through a reference: destructively updates the referenced
dict. -/
def dictWrite (h : DictHeap) (ref : ℕ) (k v : String) : DictHeap :=
  ⟨h.next, fun i => if i = ref then dictSet (h.dicts i) k v else h.dicts i⟩

/-- The parameter handling of `fetch_places_paginated_generic`
(`utils/pagination.py` lines 50-51):
`params_with_key = initial_params.copy()` followed by
`params_with_key['key'] = api_key`; the rest of the function only reads the
copy (to build the query string).  Returns the heap after the two
operations together with the reference to the copy. -/
def fetch_params_prologue (h : DictHeap) (initial_params : ℕ) (api_key : String) :
    DictHeap × ℕ :=
  let c := dictCopy h initial_params
  (dictWrite c.1 c.2 "key" api_key, c.2)

/-- The parameter handling of `make_api_request_with_retry`
(`utils/api_utils.py` lines 47-48): `request_params = params.copy()`
followed by `request_params['key'] = GOOGLE_PLACES_API_KEY`; the retry loop
afterwards only reads `request_params` and `params`. -/
def api_request_params_prologue (h : DictHeap) (params : ℕ) (api_key : String) :
    DictHeap × ℕ :=
  let c := dictCopy h params
  (dictWrite c.1 c.2 "key" api_key, c.2)

/-- C10: neither `fetch_places_paginated_generic` nor
`make_api_request_with_retry` mutates the caller's parameter dict: after
the only writing statements either function performs, the dict behind the
caller's reference holds exactly the same pairs as before, and the API key
was added to the freshly allocated internal copy only. -/
theorem C10_params_not_mutated (h : DictHeap) (ref : ℕ) (api_key : String)
    (href : ref < h.next) :
    ((fetch_params_prologue h ref api_key).1.dicts ref = h.dicts ref ∧
     (fetch_params_prologue h ref api_key).1.dicts (fetch_params_prologue h ref api_key).2
       = dictSet (h.dicts ref) "key" api_key ∧
     (fetch_params_prologue h ref api_key).2 ≠ ref) ∧
    ((api_request_params_prologue h ref api_key).1.dicts ref = h.dicts ref ∧
     (api_request_params_prologue h ref api_key).1.dicts
         (api_request_params_prologue h ref api_key).2
       = dictSet (h.dicts ref) "key" api_key ∧
     (api_request_params_prologue h ref api_key).2 ≠ ref) := by
  have hne : ref ≠ h.next := Nat.ne_of_lt href
  have hne' : h.next ≠ ref := fun hcontra => hne hcontra.symm
  refine ⟨⟨?_, ?_, ?_⟩, ?_, ?_, ?_⟩ <;>
    simp [fetch_params_prologue, api_request_params_prologue, dictCopy, dictWrite, hne, hne']

/-- Witness for C10: a concrete one-dict heap holding a query without a
`key` entry. -/
theorem C10_params_not_mutated_witness :
    ((fetch_params_prologue ⟨1, fun _ => [("query", "gym")]⟩ 0 "KEY").1.dicts 0
        = (DictHeap.mk 1 (fun _ => [("query", "gym")])).dicts 0 ∧
     (fetch_params_prologue ⟨1, fun _ => [("query", "gym")]⟩ 0 "KEY").1.dicts
         (fetch_params_prologue ⟨1, fun _ => [("query", "gym")]⟩ 0 "KEY").2
       = dictSet ((DictHeap.mk 1 (fun _ => [("query", "gym")])).dicts 0) "key" "KEY" ∧
     (fetch_params_prologue ⟨1, fun _ => [("query", "gym")]⟩ 0 "KEY").2 ≠ 0) ∧
    ((api_request_params_prologue ⟨1, fun _ => [("query", "gym")]⟩ 0 "KEY").1.dicts 0
        = (DictHeap.mk 1 (fun _ => [("query", "gym")])).dicts 0 ∧
     (api_request_params_prologue ⟨1, fun _ => [("query", "gym")]⟩ 0 "KEY").1.dicts
         (api_request_params_prologue ⟨1, fun _ => [("query", "gym")]⟩ 0 "KEY").2
       = dictSet ((DictHeap.mk 1 (fun _ => [("query", "gym")])).dicts 0) "key" "KEY" ∧
     (api_request_params_prologue ⟨1, fun _ => [("query", "gym")]⟩ 0 "KEY").2 ≠ 0) :=
  C10_params_not_mutated ⟨1, fun _ => [("query", "gym")]⟩ 0 "KEY" (by decide)

/-! ## Grid geometry (`utils/radius_utils.py`)

Python floats are modelled by real numbers.  The trigonometric destination
formula forces this part of the embedding to be noncomputable. -/

noncomputable section

/-- `EARTH_RADIUS_METERS` (`utils/radius_utils.py` line 20). -/
def EARTH_RADIUS_METERS : ℝ := 6371000

/-- `math.radians`. -/
def radians (x : ℝ) : ℝ := x * Real.pi / 180

/-- `math.degrees`. -/
def degrees (x : ℝ) : ℝ := x * 180 / Real.pi

/-- Python's `math.atan2` on the reals. -/
def atan2 (y x : ℝ) : ℝ :=
  if 0 < x then Real.arctan (y / x)
  else if x < 0 ∧ 0 ≤ y then Real.arctan (y / x) + Real.pi
  else if x < 0 then Real.arctan (y / x) - Real.pi
  else if 0 < y then Real.pi / 2
  else if y < 0 then -(Real.pi / 2)
  else 0

/-- `get_point_at_distance` (`utils/radius_utils.py` lines 23-40): the
spherical destination point `distance_meters` along `bearing_deg` from
`(lat_deg, lon_deg)`, all angles in degrees. -/
def get_point_at_distance (lat_deg lon_deg distance_meters bearing_deg : ℝ) : ℝ × ℝ :=
  let lat_rad := radians lat_deg
  let lon_rad := radians lon_deg
  let bearing_rad := radians bearing_deg
  let angular_distance := distance_meters / EARTH_RADIUS_METERS
  let new_lat_rad := Real.arcsin (Real.sin lat_rad * Real.cos angular_distance +
    Real.cos lat_rad * Real.sin angular_distance * Real.cos bearing_rad)
  let new_lon_rad := lon_rad + atan2
    (Real.sin bearing_rad * Real.sin angular_distance * Real.cos lat_rad)
    (Real.cos angular_distance - Real.sin lat_rad * Real.sin new_lat_rad)
  (degrees new_lat_rad, degrees new_lon_rad)

/-- `step_distance = search_radius_meters * 1.5` (line 55). -/
def step_distance (search_radius_meters : ℝ) : ℝ := search_radius_meters * 1.5

/-- `max_steps = math.ceil(city_radius_meters / step_distance)` (line 61).
Python's `range(1, max_steps + 1)` is empty whenever `max_steps ≤ 0`, so
the natural-number ceiling (clamping negatives to 0) yields exactly the
same ring indices. -/
def max_steps (city_radius_meters search_radius_meters : ℝ) : ℕ :=
  ⌈city_radius_meters / step_distance search_radius_meters⌉₊

/-- `num_points_on_ring = max(6, ceil(2π·distance / step_distance))`
(line 66). -/
def num_points_on_ring (search_radius_meters distance_from_center : ℝ) : ℕ :=
  max 6 ⌈2 * Real.pi * distance_from_center / step_distance search_radius_meters⌉₊

/-- The `(distance_from_center, bearing)` pairs at which the ring loops of
`generate_grid_points` (lines 64-72) place points: ring `i` (1-indexed, up
to `max_steps`) at distance `i * step_distance`, with `num_points_on_ring`
bearings spaced by `360 / num_points_on_ring` degrees, in generation
order. -/
def ring_placements (city_radius_meters search_radius_meters : ℝ) : List (ℝ × ℝ) :=
  (List.range (max_steps city_radius_meters search_radius_meters)).flatMap fun (i0 : ℕ) =>
    let d := ((i0 : ℕ) + 1 : ℕ) * step_distance search_radius_meters
    (List.range (num_points_on_ring search_radius_meters d)).map fun (j : ℕ) =>
      (d, (j : ℕ) * (360 / (num_points_on_ring search_radius_meters d : ℝ)))

/-- The raw `grid_points` list built by lines 52-72: the exact center
first, then the destination points of the ring placements in generation
order. -/
def grid_points_raw (center_lat center_lon city_radius_meters search_radius_meters : ℝ) :
    List (ℝ × ℝ) :=
  (center_lat, center_lon) ::
    (ring_placements city_radius_meters search_radius_meters).map
      (fun p => get_point_at_distance center_lat center_lon p.1 p.2)

/-- Python `round(x, 6)` (line 74), modelled with Mathlib's `round`
(half-up; Python rounds exact halves to even, a difference that can only
surface on values sitting exactly on a half at the sixth decimal). -/
def pyRound6 (x : ℝ) : ℝ := (round (x * 1000000) : ℤ) / 1000000

/-- `generate_grid_points` (lines 43-78).  The source returns
`list({(round(lat, 6), round(lon, 6)) for ...})`: the rounded points in
unspecified Python set-iteration order.  The caller-visible value is the
underlying set, modelled as such; the (unreachable for positive radius)
`step_distance <= 0` guard of line 57 returns the raw center-only list. -/
def generate_grid_points (center_lat center_lon city_radius_meters search_radius_meters : ℝ) :
    Set (ℝ × ℝ) :=
  if search_radius_meters ≤ 0 then ∅
  else if step_distance search_radius_meters ≤ 0 then {(center_lat, center_lon)}
  else { q | ∃ p ∈ grid_points_raw center_lat center_lon city_radius_meters search_radius_meters,
    q = (pyRound6 p.1, pyRound6 p.2) }

/-- Great-circle distance on the sphere of radius `EARTH_RADIUS_METERS`
(the specification-level distance measure; the source has no distance
function), for points given in degrees. -/
def sphericalDist (p q : ℝ × ℝ) : ℝ :=
  EARTH_RADIUS_METERS * Real.arccos
    (Real.sin (radians p.1) * Real.sin (radians q.1) +
     Real.cos (radians p.1) * Real.cos (radians q.1) *
       Real.cos (radians q.2 - radians p.2))

end

/-! ## Geometry lemmas -/

theorem pyRound6_zero : pyRound6 0 = 0 := by
  unfold pyRound6
  norm_num

theorem abs_pyRound6_sub (x : ℝ) : |pyRound6 x - x| ≤ 1 / 2000000 := by
  unfold pyRound6
  have h := abs_sub_round (x * 1000000)
  have heq : ((round (x * 1000000) : ℤ) : ℝ) / 1000000 - x
      = -((x * 1000000 - ((round (x * 1000000) : ℤ) : ℝ)) / 1000000) := by ring
  rw [heq, abs_neg, abs_div, abs_of_pos (by norm_num : (0 : ℝ) < 1000000)]
  rw [div_le_div_iff (by norm_num) (by norm_num)]
  nlinarith

theorem ring_placements_dist_lt (R r : ℝ) (hr : 0 < r) :
    ∀ p ∈ ring_placements R r, 0 < p.1 ∧ p.1 < R + step_distance r := by
  intro p hp
  have hstep : 0 < step_distance r := by unfold step_distance; nlinarith
  unfold ring_placements at hp
  rw [List.mem_flatMap] at hp
  obtain ⟨i0, hi0, hpj⟩ := hp
  rw [List.mem_range] at hi0
  rw [List.mem_map] at hpj
  obtain ⟨j, hj, rfl⟩ := hpj
  constructor
  · show (0 : ℝ) < ((i0 + 1 : ℕ) : ℝ) * step_distance r
    exact mul_pos (by positivity) hstep
  · show ((i0 + 1 : ℕ) : ℝ) * step_distance r < R + step_distance r
    have hub : ((max_steps R r : ℕ) : ℝ) * step_distance r < R + step_distance r := by
      unfold max_steps
      rcases le_or_lt 0 (R / step_distance r) with hx | hx
      · have hceil := Nat.ceil_lt_add_one hx
        calc (⌈R / step_distance r⌉₊ : ℝ) * step_distance r
            < (R / step_distance r + 1) * step_distance r :=
              mul_lt_mul_of_pos_right hceil hstep
          _ = R + step_distance r := by field_simp
      · exfalso
        have h0 : max_steps R r = 0 := by
          unfold max_steps
          exact Nat.ceil_eq_zero.mpr hx.le
        rw [h0] at hi0
        exact Nat.not_lt_zero i0 hi0
    have hi : ((i0 + 1 : ℕ) : ℝ) ≤ (max_steps R r : ℝ) := by
      have : (i0 + 1 : ℕ) ≤ max_steps R r := Nat.succ_le.mpr hi0
      exact_mod_cast this
    calc ((i0 + 1 : ℕ) : ℝ) * step_distance r
        ≤ (max_steps R r : ℝ) * step_distance r := mul_le_mul_of_nonneg_right hi hstep.le
      _ < R + step_distance r := hub

/-! ## C7: membership of the exact center -/

/-- C7 is false as stated: `generate_grid_points` returns the points
rounded to 6 decimal places, so a center whose coordinates carry more than
6 decimals is not itself in the output.  With center
`(0.0000004, 0)` (and any positive cell radius) the returned set holds only
the rounded center `(0, 0)`. -/
theorem C7_counterexample :
    ((4 / 10000000 : ℝ), (0 : ℝ)) ∉ generate_grid_points (4 / 10000000) 0 0 1 := by
  have h1 : ¬ ((1 : ℝ) ≤ 0) := by norm_num
  have h2 : ¬ (step_distance 1 ≤ 0) := by unfold step_distance; norm_num
  rw [generate_grid_points, if_neg h1, if_neg h2]
  intro hmem
  rw [Set.mem_setOf_eq] at hmem
  obtain ⟨p, hp, heq⟩ := hmem
  have hring : ring_placements (0 : ℝ) 1 = [] := by
    have hmax : max_steps (0 : ℝ) 1 = 0 := by
      unfold max_steps
      exact Nat.ceil_eq_zero.mpr (by unfold step_distance; norm_num)
    unfold ring_placements
    rw [hmax]
    rfl
  rw [grid_points_raw, hring] at hp
  simp only [List.map_nil, List.mem_singleton] at hp
  subst hp
  have hr6 : pyRound6 (4 / 10000000) = 0 := by
    unfold pyRound6
    rw [show (4 / 10000000 : ℝ) * 1000000 = 2 / 5 by norm_num,
      round_eq_zero_iff.mpr ⟨by norm_num, by norm_num⟩]
    norm_num
  rw [hr6] at heq
  have hfst := congrArg Prod.fst heq
  simp only [Prod.fst] at hfst
  norm_num at hfst

/-- C7 (amended): the returned point set always contains the center rounded
to 6 decimal places; in particular it contains the exact center whenever
both center coordinates are unchanged by that rounding (at most 6
decimals). -/
theorem C7_center_membership_amended (lat lon R r : ℝ) (hr : 0 < r) :
    (pyRound6 lat, pyRound6 lon) ∈ generate_grid_points lat lon R r ∧
    (pyRound6 lat = lat → pyRound6 lon = lon →
      (lat, lon) ∈ generate_grid_points lat lon R r) := by
  have h1 : ¬ (r ≤ 0) := not_le.mpr hr
  have h2 : ¬ (step_distance r ≤ 0) := by unfold step_distance; nlinarith
  constructor
  · rw [generate_grid_points, if_neg h1, if_neg h2]
    exact ⟨(lat, lon), by simp [grid_points_raw], rfl⟩
  · intro ha hb
    rw [generate_grid_points, if_neg h1, if_neg h2]
    exact ⟨(lat, lon), by simp [grid_points_raw], by rw [ha, hb]⟩

/-- Witness for C7 (amended) at the origin with coverage radius 0 and cell
radius 1. -/
theorem C7_center_membership_amended_witness :
    (pyRound6 0, pyRound6 0) ∈ generate_grid_points 0 0 0 1 ∧
    (pyRound6 0 = 0 → pyRound6 0 = 0 →
      ((0 : ℝ), (0 : ℝ)) ∈ generate_grid_points 0 0 0 1) :=
  C7_center_membership_amended 0 0 0 1 (by norm_num)

/-! ## C6: processing order of the grid points -/

/-- C6 concerns the intended ring order.  The raw point list built by
`generate_grid_points` does start with the exact center (before rings,
here at the cited failing input), but the function then returns
`list({...rounded...})` — a Python set — whose iteration order is
hash-based and unspecified, so the returned list is **not** guaranteed to
be in ring order with the center first; `perform_grid_search` merely
follows the order of the list it receives. -/
theorem C6_raw_list_center_first :
    (grid_points_raw 54.6 (-5.9) 15000 1000).head? = some (54.6, -5.9) := rfl

/-! ## C5: distance bound of the generated grid points -/

/-- C5 (amended): for every cell radius `r > 0` and any coverage radius
`R`, every returned point is the 6-decimal rounding of either the center or
of a point placed by the spherical destination formula at a distance
`d < R + 1.5·r` from the center (`1.5·r` is the ring step; the bound
`R + r` claimed by the spec is exceeded by the outermost ring whenever the
fractional part of `R / (1.5 r)` is small). -/
theorem C5_grid_radius_amended (lat lon R r : ℝ) (hr : 0 < r) :
    ∀ q ∈ generate_grid_points lat lon R r,
      q = (pyRound6 lat, pyRound6 lon) ∨
      ∃ d θ, (d, θ) ∈ ring_placements R r ∧
        q = (pyRound6 (get_point_at_distance lat lon d θ).1,
             pyRound6 (get_point_at_distance lat lon d θ).2) ∧
        0 < d ∧ d < R + 1.5 * r := by
  intro q hq
  have h1 : ¬ (r ≤ 0) := not_le.mpr hr
  have h2 : ¬ (step_distance r ≤ 0) := by unfold step_distance; nlinarith
  rw [generate_grid_points, if_neg h1, if_neg h2, Set.mem_setOf_eq] at hq
  obtain ⟨p, hp, rfl⟩ := hq
  rw [grid_points_raw] at hp
  rcases List.mem_cons.mp hp with rfl | hp'
  · left; rfl
  · right
    rw [List.mem_map] at hp'
    obtain ⟨pl, hpl, rfl⟩ := hp'
    obtain ⟨hpos, hlt⟩ := ring_placements_dist_lt R r hr pl hpl
    refine ⟨pl.1, pl.2, hpl, rfl, hpos, ?_⟩
    rw [show R + 1.5 * r = R + step_distance r by unfold step_distance; ring]
    exact hlt

/-- Witness for C5 (amended): with coverage radius 0 and cell radius 1
around the origin, the rounded center is in the output and satisfies the
disjunction. -/
theorem C5_grid_radius_amended_witness :
    (pyRound6 0, pyRound6 0) = ((pyRound6 0 : ℝ), (pyRound6 0 : ℝ)) ∨
    ∃ d θ, (d, θ) ∈ ring_placements 0 1 ∧
      ((pyRound6 0 : ℝ), (pyRound6 0 : ℝ))
        = (pyRound6 (get_point_at_distance 0 0 d θ).1,
           pyRound6 (get_point_at_distance 0 0 d θ).2) ∧
      0 < d ∧ d < 0 + 1.5 * 1 :=
  C5_grid_radius_amended 0 0 0 1 (by norm_num) (pyRound6 0, pyRound6 0)
    (by
      rw [generate_grid_points, if_neg (by norm_num : ¬ ((1 : ℝ) ≤ 0)),
        if_neg (by unfold step_distance; norm_num), Set.mem_setOf_eq]
      exact ⟨(0, 0), by simp [grid_points_raw], rfl⟩)

/-- C5 is false as stated: with coverage radius `R = 1000` and cell radius
`r = 6000` the ring step is `9000`, `max_steps = ceil(1000/9000) = 1`, and
the generator places the first ring 9000 m from the center — beyond
`R + r = 7000`.  Concretely, for center `(0, 0)` the returned set contains
the rounded destination point of placement `(distance 9000, bearing 0)`,
whose great-circle distance from the center exceeds 7000 m. -/
theorem C5_counterexample :
    ∃ q ∈ generate_grid_points 0 0 1000 6000,
      1000 + 6000 < sphericalDist (0, 0) q := by
  have hπ3 : (3 : ℝ) < Real.pi := Real.pi_gt_three
  have hπ4 : Real.pi < 3.15 := Real.pi_lt_315
  have hπ0 : (0 : ℝ) < Real.pi := by linarith
  have hstep : step_distance 6000 = 9000 := by unfold step_distance; norm_num
  have hms : max_steps 1000 6000 = 1 := by
    unfold max_steps
    rw [hstep, Nat.ceil_eq_iff one_ne_zero]
    norm_num
  have hmem : ((9000 : ℝ), (0 : ℝ)) ∈ ring_placements 1000 6000 := by
    unfold ring_placements
    rw [hms, show List.range 1 = [0] from rfl]
    simp only [List.flatMap_cons, List.flatMap_nil, List.append_nil]
    refine List.mem_map.mpr ⟨0, ?_, ?_⟩
    · exact List.mem_range.mpr (lt_of_lt_of_le (show 0 < 6 by norm_num) (le_max_left 6 _))
    · norm_num [hstep]
  have hδpos : (0 : ℝ) < 9000 / EARTH_RADIUS_METERS := by
    unfold EARTH_RADIUS_METERS; norm_num
  have hδsmall : (9000 : ℝ) / EARTH_RADIUS_METERS < 1 := by
    unfold EARTH_RADIUS_METERS; norm_num
  have hδlt2 : (9000 : ℝ) / EARTH_RADIUS_METERS < Real.pi / 2 := by linarith
  have hcos : 0 < Real.cos ((9000 : ℝ) / EARTH_RADIUS_METERS) :=
    Real.cos_pos_of_mem_Ioo ⟨by linarith, hδlt2⟩
  have hatan : atan2 0 (Real.cos ((9000 : ℝ) / EARTH_RADIUS_METERS)) = 0 := by
    unfold atan2
    rw [if_pos hcos]
    simp [Real.arctan_zero]
  have hdest : get_point_at_distance 0 0 9000 0
      = (degrees (9000 / EARTH_RADIUS_METERS), 0) := by
    unfold get_point_at_distance
    simp only [radians, zero_mul, zero_div, Real.sin_zero, Real.cos_zero, one_mul, mul_one,
      zero_add, mul_zero, sub_zero]
    rw [Real.arcsin_sin (by linarith) hδlt2.le, hatan]
    simp [degrees]
  have hq : ((pyRound6 (degrees (9000 / EARTH_RADIUS_METERS)), (0 : ℝ)))
      ∈ generate_grid_points 0 0 1000 6000 := by
    rw [generate_grid_points, if_neg (by norm_num : ¬ ((6000 : ℝ) ≤ 0)),
      if_neg (by rw [hstep]; norm_num), Set.mem_setOf_eq]
    refine ⟨get_point_at_distance 0 0 9000 0, ?_, ?_⟩
    · rw [grid_points_raw]
      exact List.mem_cons_of_mem _ (List.mem_map.mpr ⟨(9000, 0), hmem, rfl⟩)
    · rw [hdest, pyRound6_zero]
  have hdegd_lb : (0.08 : ℝ) < degrees (9000 / EARTH_RADIUS_METERS) := by
    unfold degrees EARTH_RADIUS_METERS
    rw [lt_div_iff hπ0]
    nlinarith
  have hdegd_ub : degrees (9000 / EARTH_RADIUS_METERS) < 0.0855 := by
    unfold degrees EARTH_RADIUS_METERS
    rw [div_lt_iff hπ0]
    nlinarith
  have hrd := abs_le.mp (abs_pyRound6_sub (degrees (9000 / EARTH_RADIUS_METERS)))
  have hφlb : (0.0799 : ℝ) < pyRound6 (degrees (9000 / EARTH_RADIUS_METERS)) := by
    have := hrd.1; linarith
  have hφub : pyRound6 (degrees (9000 / EARTH_RADIUS_METERS)) < 0.0856 := by
    have := hrd.2; linarith
  refine ⟨(pyRound6 (degrees (9000 / EARTH_RADIUS_METERS)), 0), hq, ?_⟩
  have hrad0 : radians 0 = 0 := by unfold radians; ring
  have hdisteq : sphericalDist (0, 0) (pyRound6 (degrees (9000 / EARTH_RADIUS_METERS)), 0)
      = EARTH_RADIUS_METERS
        * Real.arccos (Real.cos (radians (pyRound6 (degrees (9000 / EARTH_RADIUS_METERS))))) := by
    unfold sphericalDist
    simp [hrad0, Real.sin_zero, Real.cos_zero]
  rw [hdisteq]
  have h1 : 0 ≤ radians (pyRound6 (degrees (9000 / EARTH_RADIUS_METERS))) := by
    unfold radians
    nlinarith
  have h2 : radians (pyRound6 (degrees (9000 / EARTH_RADIUS_METERS))) ≤ Real.pi := by
    unfold radians
    nlinarith
  rw [Real.arccos_cos h1 h2]
  have hgen : ∀ x : ℝ, 0.0799 < x → 1000 + 6000 < EARTH_RADIUS_METERS * radians x := by
    intro x hx
    unfold radians EARTH_RADIUS_METERS
    nlinarith [mul_pos (show (0 : ℝ) < x - 0.0799 by linarith)
      (show (0 : ℝ) < Real.pi - 3 by linarith)]
  exact hgen _ hφlb
